import Mathlib

/-!
Shallow embedding of the example C programs of the repository:

* `src/example/c-multistage-with-configure/src/main.c` — a console program
  that prints one of two fixed messages depending on the integer value the
  preprocessor gives the macro `CONFIGURATION_HAS_MONOTONIC_CLOCK`
  (`#if` treats any nonzero value as true).
* `src/example/c/src/main.c` — a minimal GTK program: `activate` builds one
  window titled `"Application " APPLICATION_VERSION` with default size
  200×200 and shows it; `main` creates the application `org.gtk.example`,
  connects `activate`, runs the toolkit loop with `argc`/`argv`, unrefs the
  application and returns the loop's status.
* The version print program described by the specification is not among the
  source files; it is modelled from the specification below.

Effectful code is embedded as explicit traces of the external calls made
(writes to standard output, toolkit calls), so ordering and frame
properties ("does nothing else") are statable.
-/

/-- A single external effect of a console program: one write to standard
output of the given string. -/
inductive ConsoleEffect where
  | writeStdout (s : String)
deriving DecidableEq, Repr

/-- The bytes a run leaves on standard output: the concatenation of all of
its writes, in order. -/
def stdoutOf (effects : List ConsoleEffect) : String :=
  effects.foldl (fun acc e => match e with | .writeStdout s => acc ++ s) ""

/-- Result of running a console program: the effects it performed, in
order, and its exit code. -/
structure ConsoleRun where
  effects : List ConsoleEffect
  exitCode : Int
deriving DecidableEq, Repr

/-- The string `message` is bound to in
`src/example/c-multistage-with-configure/src/main.c` (lines 5–10): the
preprocessor evaluates `#if CONFIGURATION_HAS_MONOTONIC_CLOCK` as true
exactly when the macro's integer value is nonzero. -/
def configMessage (CONFIGURATION_HAS_MONOTONIC_CLOCK : Int) : String :=
  if CONFIGURATION_HAS_MONOTONIC_CLOCK ≠ 0 then
    "have a monotonic clock!"
  else
    "what a pitty: have no monotonic clock"

/-- `main` of `src/example/c-multistage-with-configure/src/main.c`:
`printf("%s\n", message)` performs one write of the message followed by a
line break, then `return 0`. The program reads nothing at run time, so its
run is a function of the compile-time flag alone. -/
def configMain (CONFIGURATION_HAS_MONOTONIC_CLOCK : Int) : ConsoleRun :=
  { effects := [ConsoleEffect.writeStdout
      (configMessage CONFIGURATION_HAS_MONOTONIC_CLOCK ++ "\n")]
    exitCode := 0 }

/-- A run-time environment a process could observe: command-line arguments
and an abstract remainder of the world's state. Both console `main`s of
the repository consume none of it (`int main()` / no reads), which the
embeddings express by ignoring this argument. -/
structure RuntimeEnv where
  argv : List String
  worldState : Nat
deriving DecidableEq, Repr

/-- A run of the configuration-flag program in a given run-time
environment. `main` (line 4) takes no parameters and its body reads no
run-time state, so the environment is ignored. -/
def configRun (flag : Int) (_env : RuntimeEnv) : ConsoleRun :=
  configMain flag

/-- How the C preprocessor encodes a boolean-valued flag supplied by the
external generation step: true as `1`, false as `0`. -/
def cppOfBool (b : Bool) : Int :=
  if b then 1 else 0

/-- Modelled from the spec: the version print program's source file is not
under `src/` (only the configuration-flag program and the GUI program
are). Per the specification it concatenates the fixed "version: " text
with the externally supplied version string constant, writes the result
plus a trailing line break to standard output, and terminates with a
success status code; no runtime inputs, no error conditions. -/
def versionMain (APPLICATION_VERSION : String) : ConsoleRun :=
  { effects := [ConsoleEffect.writeStdout
      ("version: " ++ APPLICATION_VERSION ++ "\n")]
    exitCode := 0 }

/-- Modelled from the spec: a run of the version print program in a given
run-time environment; the specification gives it no runtime inputs, so the
environment is ignored. -/
def versionRun (version : String) (_env : RuntimeEnv) : ConsoleRun :=
  versionMain version

/-- Tag for the one handler function the GUI program defines. -/
inductive Handler where
  | activateHandler
deriving DecidableEq, Repr

/-- One toolkit call made by the GUI program's `activate` callback, in the
shallow embedding. -/
inductive GuiAction where
  | createApplicationWindow
  | setWindowTitle (title : String)
  | setWindowDefaultSize (width height : Int)
  | showWindowAndChildren
deriving DecidableEq, Repr

/-- `activate` of `src/example/c/src/main.c` (lines 11–16), as the ordered
trace of toolkit calls it makes on each invocation:
`gtk_application_window_new`, `gtk_window_set_title` with
`"Application " APPLICATION_VERSION` (C string-literal concatenation),
`gtk_window_set_default_size(…, 200, 200)`, `gtk_widget_show_all`. -/
def activate (APPLICATION_VERSION : String) : List GuiAction :=
  [GuiAction.createApplicationWindow,
   GuiAction.setWindowTitle ("Application " ++ APPLICATION_VERSION),
   GuiAction.setWindowDefaultSize 200 200,
   GuiAction.showWindowAndChildren]

/-- One toolkit call made by the GUI program's `main`, in the shallow
embedding. -/
inductive MainStep where
  | newApplication (appId : String)
  | connectSignal (signal : String) (handler : Handler)
  | runLoop (argc : Int) (argv : List String)
  | unrefApplication
deriving DecidableEq, Repr

/-- `main` of `src/example/c/src/main.c` (lines 24–31), as the ordered
trace of toolkit calls it makes together with its return value:
`gtk_application_new("org.gtk.example", …)`, `g_signal_connect(app,
"activate", activate, NULL)`, `status = g_application_run(…, argc, argv)`,
`g_object_unref(app)`, `return status`. The status is whatever the
toolkit's run call reports, supplied here as the parameter
`toolkitStatus`. -/
def guiMain (argc : Int) (argv : List String) (toolkitStatus : Int) :
    List MainStep × Int :=
  ([MainStep.newApplication "org.gtk.example",
    MainStep.connectSignal "activate" Handler.activateHandler,
    MainStep.runLoop argc argv,
    MainStep.unrefApplication],
   toolkitStatus)

/-- The signal connections a GUI `main` trace establishes, in order. -/
def connectionsOf (trace : List MainStep) : List (String × Handler) :=
  trace.filterMap fun s =>
    match s with
    | MainStep.connectSignal sig h => some (sig, h)
    | _ => none

/-- Modelled from the spec: the GUI toolkit's event loop
(`g_application_run`) is an external collaborator, not part of the
repository. Per the specification, the activation signal is delivered to
the application exactly once per run, when it becomes ready to present
its interface, regardless of internal re-signalling. -/
def toolkitActivationDeliveries : List String :=
  ["activate"]

/-- The handler invocations a run produces: each delivered signal invokes,
in connection order, every handler connected to that signal. -/
def invocationsOf (deliveries : List String)
    (connections : List (String × Handler)) : List Handler :=
  deliveries.flatMap fun sig =>
    (connections.filter (fun c => c.1 == sig)).map Prod.snd

theorem stdoutOf_singleton (s : String) :
    stdoutOf [ConsoleEffect.writeStdout s] = s := by
  show "" ++ s = s
  exact String.empty_append s

/-- C1: with the configuration flag `CONFIGURATION_HAS_MONOTONIC_CLOCK`
true (preprocessor value 1), the configuration-flag program writes exactly
`"have a monotonic clock!"` followed by one line break to standard output
and exits with code 0. -/
theorem config_flag_true_output :
    stdoutOf (configMain (cppOfBool true)).effects = "have a monotonic clock!\n" ∧
    (configMain (cppOfBool true)).effects =
      [ConsoleEffect.writeStdout "have a monotonic clock!\n"] ∧
    (configMain (cppOfBool true)).exitCode = 0 := by
  refine ⟨?_, rfl, rfl⟩
  rw [show (configMain (cppOfBool true)).effects =
    [ConsoleEffect.writeStdout "have a monotonic clock!\n"] from rfl]
  exact stdoutOf_singleton _

/-- C2: with the configuration flag `CONFIGURATION_HAS_MONOTONIC_CLOCK`
false (preprocessor value 0), the configuration-flag program writes
exactly `"what a pitty: have no monotonic clock"` followed by one line
break to standard output and exits with code 0. -/
theorem config_flag_false_output :
    stdoutOf (configMain (cppOfBool false)).effects =
      "what a pitty: have no monotonic clock\n" ∧
    (configMain (cppOfBool false)).effects =
      [ConsoleEffect.writeStdout "what a pitty: have no monotonic clock\n"] ∧
    (configMain (cppOfBool false)).exitCode = 0 := by
  refine ⟨?_, rfl, rfl⟩
  rw [show (configMain (cppOfBool false)).effects =
    [ConsoleEffect.writeStdout "what a pitty: have no monotonic clock\n"] from rfl]
  exact stdoutOf_singleton _

/-- C3: the version print program (modelled from the spec, its source not
being under `src/`), given the version constant `"1.2.3"`, writes exactly
`"version: 1.2.3"` followed by one line break and exits 0; in general it
prints the fixed "version: " text, then the version constant, then a line
break. -/
theorem version_program_output :
    (stdoutOf (versionMain "1.2.3").effects = "version: 1.2.3\n" ∧
      (versionMain "1.2.3").exitCode = 0) ∧
    ∀ v : String,
      stdoutOf (versionMain v).effects = "version: " ++ v ++ "\n" ∧
      (versionMain v).exitCode = 0 := by
  refine ⟨⟨?_, rfl⟩, fun v => ⟨?_, rfl⟩⟩
  · rw [show (versionMain "1.2.3").effects =
      [ConsoleEffect.writeStdout ("version: " ++ "1.2.3" ++ "\n")] from rfl]
    rw [stdoutOf_singleton]
    decide
  · exact stdoutOf_singleton _

/-- C4: on each invocation, `activate` performs exactly these toolkit
calls in this order and nothing else: create one top-level application
window, set its title to `"Application "` concatenated with the version
constant (so `"Application 1.2.3"` for version `"1.2.3"`), set its default
size to 200×200, and show the window with all its children. -/
theorem activate_actions :
    (∀ v : String, activate v =
      [GuiAction.createApplicationWindow,
       GuiAction.setWindowTitle ("Application " ++ v),
       GuiAction.setWindowDefaultSize 200 200,
       GuiAction.showWindowAndChildren]) ∧
    activate "1.2.3" =
      [GuiAction.createApplicationWindow,
       GuiAction.setWindowTitle "Application 1.2.3",
       GuiAction.setWindowDefaultSize 200 200,
       GuiAction.showWindowAndChildren] := by
  exact ⟨fun v => rfl, rfl⟩

/-- C5: the GUI program's `main` makes exactly these toolkit calls in this
order: construct one application object with identifier
`"org.gtk.example"`, connect the activation callback, run the toolkit's
loop once, release the application object after the loop returns; and it
returns exactly the status the toolkit's run call reports (for every
status value, so not an unconditional 0). -/
theorem guiMain_trace_and_status :
    ∀ (argc : Int) (argv : List String) (toolkitStatus : Int),
      guiMain argc argv toolkitStatus =
        ([MainStep.newApplication "org.gtk.example",
          MainStep.connectSignal "activate" Handler.activateHandler,
          MainStep.runLoop argc argv,
          MainStep.unrefApplication],
         toolkitStatus) ∧
      ((guiMain argc argv toolkitStatus).1.filter fun s =>
        match s with
        | MainStep.newApplication _ => true
        | _ => false) = [MainStep.newApplication "org.gtk.example"] ∧
      (guiMain argc argv toolkitStatus).2 = toolkitStatus := by
  exact fun argc argv toolkitStatus => ⟨rfl, rfl, rfl⟩

/-- C6: for every value of the configuration flag, the configuration-flag
program's effects consist of exactly one write to standard output, of a
line-break-free body followed by exactly one line break (one
newline-terminated line); it exits 0, and its run does not depend on the
run-time environment (no runtime inputs). -/
theorem config_single_line_write :
    ∀ flag : Int,
      (∃ body : String,
        (configMain flag).effects = [ConsoleEffect.writeStdout (body ++ "\n")] ∧
        body.toList.count '\n' = 0) ∧
      (configMain flag).exitCode = 0 ∧
      ∀ env : RuntimeEnv, configRun flag env = configMain flag := by
  intro flag
  refine ⟨⟨configMessage flag, rfl, ?_⟩, rfl, fun env => rfl⟩
  unfold configMessage
  split <;> decide

/-- C7: in every run of the GUI program — the toolkit, per its
specification, delivering the activation signal exactly once — the
activation callback is invoked exactly once: the list of handler
invocations is exactly one invocation of the activation handler, for all
command-line arguments and toolkit statuses. -/
theorem activate_invoked_exactly_once :
    ∀ (argc : Int) (argv : List String) (toolkitStatus : Int),
      invocationsOf toolkitActivationDeliveries
          (connectionsOf (guiMain argc argv toolkitStatus).1) =
        [Handler.activateHandler] ∧
      (invocationsOf toolkitActivationDeliveries
          (connectionsOf (guiMain argc argv toolkitStatus).1)).count
        Handler.activateHandler = 1 := by
  exact fun argc argv toolkitStatus => ⟨rfl, rfl⟩

/-- C8: two runs of the same console program with identical compile-time
inputs leave byte-identical text on standard output (and equal whole-run
results), whatever the run-time environments of the two runs are: both
console programs are deterministic in everything but their compile-time
constants. -/
theorem console_runs_byte_identical :
    ∀ (flag : Int) (version : String) (env1 env2 : RuntimeEnv),
      stdoutOf (configRun flag env1).effects =
        stdoutOf (configRun flag env2).effects ∧
      configRun flag env1 = configRun flag env2 ∧
      stdoutOf (versionRun version env1).effects =
        stdoutOf (versionRun version env2).effects ∧
      versionRun version env1 = versionRun version env2 := by
  exact fun flag version env1 env2 => ⟨rfl, rfl, rfl, rfl⟩

/-- C9: for every integer preprocessor value of the configuration flag,
the program prints one of the two fixed messages: zero selects
`"what a pitty: have no monotonic clock"` and any nonzero value selects
`"have a monotonic clock!"`, each followed by one line break; exit code 0
in all cases. -/
theorem config_any_integer_flag :
    ∀ v : Int,
      stdoutOf (configMain v).effects =
        (if v = 0 then "what a pitty: have no monotonic clock"
         else "have a monotonic clock!") ++ "\n" ∧
      (configMain v).exitCode = 0 := by
  intro v
  refine ⟨?_, rfl⟩
  rw [show (configMain v).effects =
    [ConsoleEffect.writeStdout (configMessage v ++ "\n")] from rfl]
  rw [stdoutOf_singleton]
  unfold configMessage
  rcases eq_or_ne v 0 with h | h <;> simp [h]

/-- C10: the GUI program's `main` forwards `argc` and `argv` unmodified to
the toolkit's run call — the run-loop step of its trace carries exactly
the given arguments — and nothing else in its behaviour depends on them:
all other trace steps and the returned status are identical across
different argument values (given the same toolkit-reported status). -/
theorem gui_args_forwarded_unmodified :
    ∀ (argc : Int) (argv : List String) (argc2 : Int) (argv2 : List String)
      (toolkitStatus : Int),
      ((guiMain argc argv toolkitStatus).1.filterMap fun s =>
        match s with
        | MainStep.runLoop a v => some (a, v)
        | _ => none) = [(argc, argv)] ∧
      ((guiMain argc argv toolkitStatus).1.filter fun s =>
        match s with
        | MainStep.runLoop _ _ => false
        | _ => true) =
      ((guiMain argc2 argv2 toolkitStatus).1.filter fun s =>
        match s with
        | MainStep.runLoop _ _ => false
        | _ => true) ∧
      (guiMain argc argv toolkitStatus).2 =
        (guiMain argc2 argv2 toolkitStatus).2 := by
  exact fun argc argv argc2 argv2 toolkitStatus => ⟨rfl, rfl, rfl⟩
